import Mathlib

set_option maxRecDepth 4096

/-!
# Verification of the Travel-assist streaming/orchestration core

Shallow embedding of `src/services/geminiService.ts` (the `LiveService`
session manager, the two-stage Retrieval Orchestrator `fetchRealFlights`,
the text entry point `runTextQuery`) together with the data model of
`src/types.ts`, plus a spec-modelled PCM codec (the `utils/audioUtils`
module is not part of the provided sources).

Remote-model calls, microphone acquisition and JSON parsing are external
effects; they are embedded as explicit environment records whose fields
return `Except` values (a thrown exception / rejected promise is
`Except.error`).  Functions that perform remote calls additionally return
a trace (`List RemoteCall`) recording which remote stages were invoked,
and the session manager's message handler returns the list of observable
effects (orchestrator invocations, UI deliveries, tool responses) it
produces, so that "exactly once" properties can be stated.
-/

namespace TravelAssist

/-- JavaScript string coercion of a possibly-`undefined` value, as used in
template literals: an absent value renders as the string `"undefined"`. -/
def jsInterp (o : Option String) : String := o.getD "undefined"

/-- JavaScript `a || b` on a possibly-`undefined` string `a`: the default is
used when `a` is `undefined` or the empty string (both falsy). -/
def jsOr (o : Option String) (dflt : String) : String :=
  match o with
  | none => dflt
  | some s => if s = "" then dflt else s

/-- JavaScript truthiness of a possibly-`undefined` string (`!s` is true
exactly when `s` is `undefined` or empty). -/
def jsTruthyStr (o : Option String) : Bool :=
  match o with
  | none => false
  | some s => s ≠ ""

/-- JavaScript truthiness of `xs?.length` for a possibly-`undefined` array. -/
def jsTruthyLen (o : Option (List String)) : Bool :=
  match o with
  | none => false
  | some l => !l.isEmpty

/-- Data model: a citation source (`{title, uri}`), from `src/types.ts`. -/
structure Source where
  title : String
  uri : String
deriving DecidableEq, Repr

/-- Data model: one flight leg, from `src/types.ts`. -/
structure Leg where
  id : String
  origin : String
  destination : String
  departureTime : String
  arrivalTime : String
  duration : String
  carrier : String
  flightNumber : String
deriving DecidableEq, Repr

/-- Data model: an itinerary (`Flight`), from `src/types.ts`. -/
structure Flight where
  id : String
  totalPrice : ℚ
  currency : String
  totalDuration : String
  legs : List Leg
  tags : List String
  stopoverInfo : Option String
deriving DecidableEq, Repr

/-- Data model: the retrieval result (`ToolResponse`), from `src/types.ts`.
The source marks `sources` optional but every producer supplies it, so it is
embedded as a plain list. -/
structure ToolResponse where
  flights : List Flight
  summary : String
  sources : List Source
deriving DecidableEq, Repr

/-- An opaque thrown value / rejection reason. -/
abbrev Err := String

/-- The `web` payload of a grounding chunk (`c.web.title`, `c.web.uri`,
each possibly absent). -/
structure WebInfo where
  title : Option String
  uri : Option String
deriving DecidableEq, Repr

/-- A grounding chunk of the stage-1 search response (`c.web` may be absent). -/
structure GroundingChunk where
  web : Option WebInfo
deriving DecidableEq, Repr

/-- The stage-1 (grounded search) remote response: `response.text` and the
grounding chunks, each possibly absent. -/
structure SearchResponse where
  text : Option String
  groundingChunks : Option (List GroundingChunk)
deriving DecidableEq, Repr

/-- The stage-2 (extraction) remote response: only its `text` is consulted. -/
structure ExtractResponse where
  text : Option String
deriving DecidableEq, Repr

/-- Environment of the Retrieval Orchestrator: the two remote model calls of
`fetchRealFlights` (either may throw) and the external `JSON.parse` combined
with the schema check that the parsed value is a `Flight` array (a parse
failure is `Except.error`). -/
structure RetrievalEnv where
  search : String → Except Err SearchResponse
  extract : String → Except Err ExtractResponse
  jsonParse : String → Except Unit (List Flight)

/-- Trace entries recording which remote-model calls a run performed. -/
inductive RemoteCall
  | search (prompt : String)
  | extract (prompt : String)
  | generate (prompt : String)
deriving DecidableEq, Repr

/-- The stage-1 prompt of `fetchRealFlights` (line 37 of
`src/services/geminiService.ts`). -/
def searchContents (query : String) : String :=
  "Find real flight options for: " ++ query ++
    ". detailed list with prices, airlines, times."

/-- The stage-2 prompt of `fetchRealFlights` (lines 56-60). -/
def extractContents (searchData : String) : String :=
  "Extract flight itineraries from this text into a strict JSON format. \n    Text: "
    ++ searchData ++
    "\n    \n    If specific times aren\x27t mentioned, estimate valid times. \n    If prices aren\x27t mentioned, estimate based on typical market rates for this route."

/-- Sources extraction of `fetchRealFlights` (lines 44-46): map each chunk
with a `web` field to `{title: c.web.title || \x27Source\x27, uri: c.web.uri || \x27#\x27}`
and drop the rest; an absent chunk list yields `[]`. -/
def extractSources (chunks : Option (List GroundingChunk)) : List Source :=
  (chunks.getD []).filterMap fun c =>
    c.web.map fun w => { title := jsOr w.title "Source", uri := jsOr w.uri "#" }

/-- The count-based summary of `fetchRealFlights` (line 108). -/
def countSummary (n : Nat) : String :=
  "Found " ++ toString n ++ " real flight options from web sources."

/-- The flights value computed by lines 96-104 of `fetchRealFlights`:
`flights` starts `[]`; if the extraction text is truthy it is parsed, and a
parse failure is caught leaving `[]`. -/
def parsedFlights (env : RetrievalEnv) (rawJSON : Option String) : List Flight :=
  match rawJSON with
  | none => []
  | some raw =>
    if raw = "" then []
    else
      match env.jsonParse raw with
      | .ok fs => fs
      | .error _ => []

/-- Embedding of `fetchRealFlights` (lines 30-112 of
`src/services/geminiService.ts`).  The first component of the result is the
trace of remote calls performed; the second is the returned promise: `.ok`
a `ToolResponse`, or `.error` when a remote call threw (the function itself
has no try/catch around its two `generateContent` awaits). -/
def fetchRealFlights (env : RetrievalEnv) (query : String) :
    List RemoteCall × Except Err ToolResponse :=
  match env.search (searchContents query) with
  | .error e => ([.search (searchContents query)], .error e)
  | .ok searchResponse =>
    let searchData := searchResponse.text
    let sources := extractSources searchResponse.groundingChunks
    if jsTruthyStr searchData = false then
      ([.search (searchContents query)],
        .ok { flights := [], summary := "Could not find flight data.", sources := [] })
    else
      let sd := searchData.getD ""
      match env.extract (extractContents sd) with
      | .error e =>
        ([.search (searchContents query), .extract (extractContents sd)], .error e)
      | .ok extractionResponse =>
        let flights := parsedFlights env extractionResponse.text
        let summary :=
          if flights.length > 0 then countSummary flights.length
          else sd.take 200 ++ "..."
        ([.search (searchContents query), .extract (extractContents sd)],
          .ok { flights := flights, summary := summary, sources := sources })

/-- A function call requested by the remote model (`fc`): its correlation id,
name, and the destructured `{origin, destination, stops, date}` arguments,
each possibly absent. -/
structure FunctionCall where
  id : Option String
  name : Option String
  origin : Option String
  destination : Option String
  stops : Option (List String)
  date : Option String
deriving DecidableEq, Repr

/-- The search query built from a `searchFlights` tool call (line 135 and
line 262 of `src/services/geminiService.ts`): the template literal
`Flights from X to Y [via S1, S2] on D`, with JavaScript coercions for
absent values. -/
def buildSearchQuery (fc : FunctionCall) : String :=
  "Flights from " ++ jsInterp fc.origin ++ " to " ++ jsInterp fc.destination ++ " " ++
    (if jsTruthyLen fc.stops then "via " ++ String.intercalate ", " (fc.stops.getD [])
     else "") ++
    " on " ++ jsOr fc.date "upcoming dates"

/-- The response of the tool-enabled `generateContent` call of `runTextQuery`:
the (possibly absent) list of requested function calls and the plain text. -/
structure GenResponse where
  functionCalls : Option (List FunctionCall)
  text : Option String
deriving DecidableEq, Repr

/-- Environment of `runTextQuery`: the tool-enabled remote call (may throw)
plus the Retrieval Orchestrator environment it hands to `fetchRealFlights`. -/
structure TextEnv where
  generate : String → Except Err GenResponse
  retrieval : RetrievalEnv

/-- JavaScript `xs?.[0]`: the first element of a possibly-`undefined` array. -/
def jsIndexZero {α : Type} (o : Option (List α)) : Option α :=
  match o with
  | none => none
  | some l => l.head?

/-- The fallback result of the outer catch of `runTextQuery` (line 147). -/
def errorFallback : ToolResponse :=
  { flights := [], summary := "Sorry, I encountered an error.", sources := [] }

/-- The fixed hint used by `runTextQuery` when the model neither calls the
tool nor returns text (line 141). -/
def textHint : String :=
  "I can help you plan flights. Try asking \x27Find flights from London to NY\x27."

/-- Embedding of `runTextQuery` (lines 115-149 of
`src/services/geminiService.ts`).  The whole body is inside a try/catch, so
the result is always a `ToolResponse`; the trace records the remote calls
performed (the tool-enabled generate, then any retrieval stages). -/
def runTextQuery (env : TextEnv) (query : String) :
    List RemoteCall × ToolResponse :=
  match env.generate query with
  | .error _ => ([.generate query], errorFallback)
  | .ok response =>
    match jsIndexZero response.functionCalls with
    | some fc =>
      if fc.name = some "searchFlights" then
        match fetchRealFlights env.retrieval (buildSearchQuery fc) with
        | (calls, .ok r) => (.generate query :: calls, r)
        | (calls, .error _) => (.generate query :: calls, errorFallback)
      else
        ([.generate query],
          { flights := [], summary := jsOr response.text textHint, sources := [] })
    | none =>
      ([.generate query],
        { flights := [], summary := jsOr response.text textHint, sources := [] })

/-- The `result` string of the tool response sent back on the live session
(lines 278-280): counts, top option via optional chaining (absent fields
render as `undefined`), and the summary. -/
def toolResultText (r : ToolResponse) : String :=
  "Found " ++ toString r.flights.length ++ " flights. \n                                Top option: "
    ++ jsInterp ((r.flights.head?.bind fun f => f.legs.head?).map Leg.carrier)
    ++ " for "
    ++ (match r.flights.head? with
        | none => "undefined"
        | some f => toString f.totalPrice)
    ++ " " ++ jsInterp (r.flights.head?.map Flight.currency)
    ++ ".\n                                Summary: " ++ r.summary

/-- Observable effects of the session manager's tool-call handling:
an invocation of the Retrieval Orchestrator, a delivery to the
`onFlightsFound` UI observer, and a `sendToolResponse` on the live session. -/
inductive LiveEffect
  | invokeOrchestrator (query : String)
  | flightsFound (r : ToolResponse)
  | toolResponse (id : Option String) (name : Option String) (result : String)
deriving DecidableEq, Repr

/-- Recognizer for orchestrator-invocation effects, used to count them. -/
def isOrchestratorInvocation : LiveEffect → Bool
  | .invokeOrchestrator _ => true
  | _ => false

/-- Recognizer for tool-response effects correlated to a given call id. -/
def isToolResponseWithId (i : Option String) : LiveEffect → Bool
  | .toolResponse j _ _ => j = i
  | _ => false

/-- Embedding of one iteration of the tool-call loop of
`LiveService.handleMessage` (lines 259-285).  `sessionAlive` is whether
`this.sessionPromise` is still non-null when the retrieval completes: the
`this.sessionPromise?.then(...)` optional chain sends the tool response only
then.  The awaited `fetchRealFlights` is not wrapped in any try/catch here,
so its rejection propagates (`Except.error`). -/
def processFunctionCall (env : RetrievalEnv) (sessionAlive : Bool)
    (fc : FunctionCall) : Except Err (List LiveEffect) :=
  if fc.name = some "searchFlights" then
    let q := buildSearchQuery fc
    match (fetchRealFlights env q).2 with
    | .error e => .error e
    | .ok realData =>
      .ok ([.invokeOrchestrator q, .flightsFound realData] ++
        (if sessionAlive then
          [.toolResponse fc.id fc.name (toolResultText realData)]
         else []))
  else .ok []

/-- Embedding of the tool-call branch of `LiveService.handleMessage`
(lines 258-287): iterate `processFunctionCall` over
`message.toolCall.functionCalls`, concatenating effects; a rejection aborts
the handler. -/
def handleMessageToolCall (env : RetrievalEnv) (sessionAlive : Bool) :
    List FunctionCall → Except Err (List LiveEffect)
  | [] => .ok []
  | fc :: rest => do
    let es ← processFunctionCall env sessionAlive fc
    let rest' ← handleMessageToolCall env sessionAlive rest
    pure (es ++ rest')

/-- Connection status values, from `src/types.ts` (`LiveStatus`). -/
inductive LiveStatus
  | disconnected
  | connecting
  | connected
  | error
deriving DecidableEq, Repr

/-- Mutable fields of `LiveService` relevant to connect/disconnect: whether
each nullable reference is currently non-null, plus the playback cursor. -/
structure LiveState where
  sessionPromise : Bool
  inputSource : Bool
  processor : Bool
  currentStream : Bool
  nextStartTime : ℚ
deriving DecidableEq, Repr

/-- The state established by the `LiveService` constructor (lines 162-167):
every nullable reference is null and the playback cursor is 0. -/
def initialLiveState : LiveState :=
  { sessionPromise := false, inputSource := false, processor := false,
    currentStream := false, nextStartTime := 0 }

/-- Microphone acquisition failures (spec §7 taxonomy). -/
inductive MicErr
  | permissionDenied
  | deviceUnavailable
deriving DecidableEq, Repr

/-- Environment of `connect`: the `audioContext.resume()` call and the
`getUserMedia` call, either of which may throw into the surrounding catch. -/
structure ConnectEnv where
  resume : Except Err Unit
  getUserMedia : Except MicErr Unit

/-- Embedding of `LiveService.connect` (lines 169-205).  Returns the updated
state, the ordered status notifications emitted, and whether
`ai.live.connect` was reached (a session opened against the remote model).
`onStatusChange(\x27connecting\x27)` fires first; any throw inside the try block
is caught and notifies `error` without opening a session. -/
def connect (env : ConnectEnv) (s : LiveState) :
    LiveState × List LiveStatus × Bool :=
  match env.resume with
  | .error _ => (s, [LiveStatus.connecting, LiveStatus.error], false)
  | .ok _ =>
    match env.getUserMedia with
    | .error _ => (s, [LiveStatus.connecting, LiveStatus.error], false)
    | .ok _ =>
      ({ s with currentStream := true, sessionPromise := true },
        [LiveStatus.connecting], true)

/-- Embedding of `LiveService.disconnect` (lines 290-300): stop and null the
stream if present, detach input nodes (their fields are not nulled),
unconditionally notify `disconnected`, and null the session reference.
The function is total: no exception is raised from any state. -/
def disconnect (s : LiveState) : LiveState × List LiveStatus :=
  ({ s with currentStream := false, sessionPromise := false },
    [LiveStatus.disconnected])

/-- Embedding of the playback-scheduling fragment of
`LiveService.handleMessage` (lines 243-251): given the current cursor
(`nextStartTime`), the current time and the decoded buffer duration, the
buffer starts at `max cursor now` and the cursor advances to
`start + duration`.  Returns `(start, new cursor)`. -/
def enqueue (cursor now duration : ℚ) : ℚ × ℚ :=
  let start := max cursor now
  (start, start + duration)

/-- Modelled from the spec: the PCM sample encoder of the missing
`utils/audioUtils` module (`createPcmBlob` encode direction, spec §4.1):
each float sample is clamped to [−1, 1] and scaled by 32767 to a 16-bit
signed integer (rounded to the nearest integer).  Samples are idealized
as rationals. -/
def pcmEncodeSample (x : ℚ) : ℤ :=
  round (max (-1 : ℚ) (min 1 x) * 32767)

/-- Modelled from the spec: the PCM sample decoder of the missing
`utils/audioUtils` module (`decodeAudioData` direction, spec §4.1): the
inverse mapping of a 16-bit signed integer back into a float in [−1, 1]. -/
def pcmDecodeSample (v : ℤ) : ℚ :=
  (v : ℚ) / 32767

/-- Modelled from the spec: little-endian serialization of one 16-bit signed
sample into its two bytes (low byte first), spec §4.1. -/
def int16ToLE (v : ℤ) : ℕ × ℕ :=
  let u := (v % 65536).toNat
  (u % 256, u / 256)

/-- Modelled from the spec: little-endian deserialization of two bytes back
into a 16-bit signed value (two's complement), spec §4.1. -/
def int16FromLE (lo hi : ℕ) : ℤ :=
  let u := lo + 256 * hi
  if 32768 ≤ u then (u : ℤ) - 65536 else (u : ℤ)

/-- Modelled from the spec: `encode(frame) -> bytes` of the missing
`utils/audioUtils` module — each sample becomes two little-endian bytes. -/
def encodeFrame (frame : List ℚ) : List ℕ :=
  (frame.map fun s =>
    [(int16ToLE (pcmEncodeSample s)).1, (int16ToLE (pcmEncodeSample s)).2]).flatten

/-- Modelled from the spec: `decode(bytes) -> samples` of the missing
`utils/audioUtils` module — consecutive byte pairs are read as little-endian
16-bit signed samples; an incomplete trailing byte is truncated. -/
def decodeBytes : List ℕ → List ℚ
  | lo :: hi :: rest => pcmDecodeSample (int16FromLE lo hi) :: decodeBytes rest
  | _ => []

/-! ## Concrete fixtures used to instantiate theorems -/

/-- The `searchFlights` tool call of the spec's round-trip scenario:
`{origin: "LHR", destination: "SIN", stops: [], date: "2024-05-01"}` with
call id `call-1`. -/
def fcLHR : FunctionCall :=
  { id := some "call-1", name := some "searchFlights",
    origin := some "LHR", destination := some "SIN",
    stops := some [], date := some "2024-05-01" }

/-- A function call whose name is not `searchFlights`. -/
def fcOther : FunctionCall :=
  { id := some "call-0", name := some "getWeather",
    origin := none, destination := none, stops := none, date := none }

/-- A retrieval environment whose remote calls all throw. -/
def envSearchThrows : RetrievalEnv :=
  { search := fun _ => .error "network down",
    extract := fun _ => .error "network down",
    jsonParse := fun _ => .error () }

/-- A stage-1 response with non-empty text and no grounding chunks. -/
def srOk : SearchResponse :=
  { text := some "BA flights LHR to SIN from 600 GBP", groundingChunks := none }

/-- A retrieval environment where both remote stages succeed but the
extraction text fails to parse. -/
def envParseFail : RetrievalEnv :=
  { search := fun _ => .ok srOk,
    extract := fun _ => .ok { text := some "not json" },
    jsonParse := fun _ => .error () }

/-- The retrieval result produced by `envParseFail`: empty flights, the
stage-1 text (shorter than 200 characters) plus an ellipsis, no sources. -/
def rParseFail : ToolResponse :=
  { flights := [], summary := "BA flights LHR to SIN from 600 GBP...", sources := [] }

/-- A retrieval environment whose stage-1 call succeeds with no text. -/
def envEmptySearch : RetrievalEnv :=
  { search := fun _ => .ok { text := none, groundingChunks := none },
    extract := fun _ => .error "unreached",
    jsonParse := fun _ => .error () }

/-- A connect environment where resume succeeds and the microphone is
denied. -/
def envMicFail : ConnectEnv :=
  { resume := .ok (), getUserMedia := .error .permissionDenied }

/-- A model response whose first function call is not `searchFlights` even
though a `searchFlights` call appears later, with plain text present. -/
def respC10 : GenResponse :=
  { functionCalls := some [fcOther, fcLHR],
    text := some "Could you specify your departure city?" }

/-- A text-query environment returning `respC10`. -/
def envGenOther : TextEnv :=
  { generate := fun _ => .ok respC10, retrieval := envSearchThrows }

/-- A text-query environment where the model requests `searchFlights` but
the retrieval stage-1 call throws. -/
def envTextThrows : TextEnv :=
  { generate := fun _ => .ok { functionCalls := some [fcLHR], text := none },
    retrieval := envSearchThrows }

/-! ## Helper lemmas (shared across claims) -/

/-- Behaviour of `fetchRealFlights` when both remote stages succeed and the
stage-1 text is non-empty: the trace lists exactly the two stages, and the
result is assembled from the parsed flights (lines 96-111). -/
theorem fetchRealFlights_both_stages_ok (env : RetrievalEnv) (q sd : String)
    (sr : SearchResponse) (er : ExtractResponse)
    (hs : env.search (searchContents q) = .ok sr)
    (hst : sr.text = some sd) (hsd : sd ≠ "")
    (he : env.extract (extractContents sd) = .ok er) :
    fetchRealFlights env q =
      ([.search (searchContents q), .extract (extractContents sd)],
        .ok { flights := parsedFlights env er.text,
              summary :=
                if (parsedFlights env er.text).length > 0
                then countSummary (parsedFlights env er.text).length
                else sd.take 200 ++ "...",
              sources := extractSources sr.groundingChunks }) := by
  unfold fetchRealFlights
  rw [hs]
  simp only [hst, jsTruthyStr, Option.getD_some]
  rw [if_neg (by simp [hsd]), he]

/-- Behaviour of one tool-loop iteration on a `searchFlights` call whose
retrieval succeeds: orchestrator invocation, UI delivery, and — only when
the session reference is still non-null — the tool response. -/
theorem processFunctionCall_searchFlights (env : RetrievalEnv) (alive : Bool)
    (fc : FunctionCall) (r : ToolResponse)
    (hname : fc.name = some "searchFlights")
    (hok : (fetchRealFlights env (buildSearchQuery fc)).2 = .ok r) :
    processFunctionCall env alive fc =
      .ok ([.invokeOrchestrator (buildSearchQuery fc), .flightsFound r] ++
        (if alive then [.toolResponse fc.id fc.name (toolResultText r)] else [])) := by
  unfold processFunctionCall
  rw [hname]
  simp only [if_pos rfl]
  rw [hok]
  simp

/-- Handling a message whose tool call carries a single function call. -/
theorem handleMessageToolCall_singleton (env : RetrievalEnv) (alive : Bool)
    (fc : FunctionCall) (es : List LiveEffect)
    (h : processFunctionCall env alive fc = .ok es) :
    handleMessageToolCall env alive [fc] = .ok es := by
  unfold handleMessageToolCall
  rw [h]
  show (Except.ok (es ++ []) : Except Err (List LiveEffect)) = .ok es
  rw [List.append_nil]

/-! ## Claim theorems -/

/-- C7: for every retrieval in which the grounded-search stage returns empty
(or no) text, the Retrieval Orchestrator short-circuits without invoking the
extraction stage (the remote-call trace holds only the search stage) and
returns exactly `{flights: [], summary: "Could not find flight data.",
sources: []}`. -/
theorem c7_empty_search_short_circuits (env : RetrievalEnv) (q : String)
    (sr : SearchResponse)
    (hs : env.search (searchContents q) = .ok sr)
    (hempty : sr.text = none ∨ sr.text = some "") :
    fetchRealFlights env q =
      ([RemoteCall.search (searchContents q)],
        .ok { flights := [], summary := "Could not find flight data.",
              sources := [] }) := by
  unfold fetchRealFlights
  rw [hs]
  rcases hempty with h | h <;> simp [h, jsTruthyStr]

/-- Witness for C7 at a concrete environment whose search stage returns no
text. -/
theorem c7_empty_search_short_circuits_witness :
    envEmptySearch.search (searchContents "LHR to SIN") =
      .ok { text := none, groundingChunks := none } ∧
    fetchRealFlights envEmptySearch "LHR to SIN" =
      ([RemoteCall.search (searchContents "LHR to SIN")],
        .ok { flights := [], summary := "Could not find flight data.",
              sources := [] }) :=
  ⟨rfl, c7_empty_search_short_circuits envEmptySearch "LHR to SIN"
    { text := none, groundingChunks := none } rfl (Or.inl rfl)⟩

/-- C8: for every retrieval whose extraction stage returns text that is not
a valid Itinerary array, the Orchestrator catches the parse error (it is
never propagated: the result is an `.ok` value) and returns `flights = []`
with a non-empty summary equal to the first 200 characters of the stage-1
search text followed by an ellipsis; if any flights do parse, the summary is
instead the count-based sentence. -/
theorem c8_parse_failure_fallback (env : RetrievalEnv) (q sd raw : String)
    (sr : SearchResponse) (er : ExtractResponse)
    (hs : env.search (searchContents q) = .ok sr)
    (hst : sr.text = some sd) (hsd : sd ≠ "")
    (he : env.extract (extractContents sd) = .ok er)
    (het : er.text = some raw) (hraw : raw ≠ "") :
    (env.jsonParse raw = .error () →
      (fetchRealFlights env q).2 =
        .ok { flights := [], summary := sd.take 200 ++ "...",
              sources := extractSources sr.groundingChunks }) ∧
    sd.take 200 ++ "..." ≠ "" ∧
    (∀ fs : List Flight, env.jsonParse raw = .ok fs → fs ≠ [] →
      (fetchRealFlights env q).2 =
        .ok { flights := fs, summary := countSummary fs.length,
              sources := extractSources sr.groundingChunks }) := by
  have hmain := fetchRealFlights_both_stages_ok env q sd sr er hs hst hsd he
  refine ⟨?_, ?_, ?_⟩
  · intro hparse
    have hflights : parsedFlights env er.text = [] := by
      simp [parsedFlights, het, hraw, hparse]
    rw [hmain]
    simp [hflights]
  · intro hcontra
    have h := congrArg String.length hcontra
    rw [String.length_append] at h
    have h3 : ("..." : String).length = 3 := rfl
    have h0 : ("" : String).length = 0 := rfl
    rw [h3, h0] at h
    omega
  · intro fs hparse hne
    have hflights : parsedFlights env er.text = fs := by
      simp [parsedFlights, het, hraw, hparse]
    rw [hmain]
    simp [hflights, List.length_pos, hne]

/-- Witness for C8 at a concrete environment whose extraction text fails to
parse. -/
theorem c8_parse_failure_fallback_witness :
    envParseFail.jsonParse "not json" = .error () ∧
    ((envParseFail.jsonParse "not json" = .error () →
      (fetchRealFlights envParseFail "LHR to SIN").2 =
        .ok { flights := [],
              summary := String.take "BA flights LHR to SIN from 600 GBP" 200 ++ "...",
              sources := extractSources srOk.groundingChunks }) ∧
     String.take "BA flights LHR to SIN from 600 GBP" 200 ++ "..." ≠ "" ∧
     (∀ fs : List Flight, envParseFail.jsonParse "not json" = .ok fs → fs ≠ [] →
      (fetchRealFlights envParseFail "LHR to SIN").2 =
        .ok { flights := fs, summary := countSummary fs.length,
              sources := extractSources srOk.groundingChunks })) :=
  ⟨rfl, c8_parse_failure_fallback envParseFail "LHR to SIN"
    "BA flights LHR to SIN from 600 GBP" "not json" srOk { text := some "not json" }
    rfl rfl (by decide) rfl rfl (by decide)⟩

/-- C3 counterexample: on the never-connected initial state, `disconnect`
does emit a status notification, and two consecutive `disconnect` calls emit
two `disconnected` notifications in total, not one. -/
theorem c3_counterexample :
    (disconnect initialLiveState).2 ≠ [] ∧
    ((disconnect initialLiveState).2 ++
      (disconnect (disconnect initialLiveState).1).2).count
        LiveStatus.disconnected ≠ 1 := by
  constructor
  · intro h
    simpa [disconnect] using congrArg List.length h
  · intro h
    simp [disconnect, List.count_cons] at h

/-- C3 as amended: `disconnect` never raises (it is a total function) and,
from every state — including the never-connected initial one — emits exactly
one `disconnected` notification; hence two consecutive calls emit exactly
two in total. -/
theorem c3_amended_one_notification_per_call (s : LiveState) :
    (disconnect s).2 = [LiveStatus.disconnected] ∧
    ((disconnect s).2 ++ (disconnect (disconnect s).1).2).count
      LiveStatus.disconnected = 2 := by
  constructor
  · rfl
  · simp [disconnect, List.count_cons]

/-- C4: whenever microphone acquisition fails, `connect` notifies
`connecting` first, then `error`, and never reaches the live-session open
against the remote model. -/
theorem c4_mic_failure_no_session (env : ConnectEnv) (s : LiveState) (e : MicErr)
    (hres : env.resume = .ok ()) (hmic : env.getUserMedia = .error e) :
    (connect env s).2.1 = [LiveStatus.connecting, LiveStatus.error] ∧
    (connect env s).2.2 = false := by
  unfold connect
  rw [hres, hmic]
  exact ⟨rfl, rfl⟩

/-- Witness for C4 at a concrete environment with a denied microphone. -/
theorem c4_mic_failure_no_session_witness :
    envMicFail.resume = .ok () ∧
    envMicFail.getUserMedia = .error MicErr.permissionDenied ∧
    (connect envMicFail initialLiveState).2.1 =
      [LiveStatus.connecting, LiveStatus.error] ∧
    (connect envMicFail initialLiveState).2.2 = false :=
  ⟨rfl, rfl,
    c4_mic_failure_no_session envMicFail initialLiveState
      MicErr.permissionDenied rfl rfl⟩

/-- C5: for buffers of durations d1, d2, d3 enqueued at arbitrary times that
all precede the end of the first scheduled buffer, each buffer starts at
`max cursor now` and the cursor advances by its duration, so the start times
are strictly back-to-back: `start2 = start1 + d1` and
`start3 = start1 + d1 + d2`. -/
theorem c5_enqueue_back_to_back (c0 t1 t2 t3 d1 d2 d3 : ℚ)
    (h2 : t2 ≤ (enqueue c0 t1 d1).1 + d1)
    (h3 : t3 ≤ (enqueue c0 t1 d1).1 + d1)
    (hd2 : 0 ≤ d2) :
    (enqueue (enqueue c0 t1 d1).2 t2 d2).1 = (enqueue c0 t1 d1).1 + d1 ∧
    (enqueue (enqueue (enqueue c0 t1 d1).2 t2 d2).2 t3 d3).1 =
      (enqueue c0 t1 d1).1 + d1 + d2 := by
  simp only [enqueue] at *
  constructor
  · exact max_eq_left h2
  · rw [max_eq_left h2]
    exact max_eq_left (by linarith)

/-- Witness for C5 at concrete rational times and durations. -/
theorem c5_enqueue_back_to_back_witness :
    ((2 : ℚ) ≤ (enqueue 0 1 5).1 + 5) ∧ ((3 : ℚ) ≤ (enqueue 0 1 5).1 + 5) ∧
    ((enqueue (enqueue 0 1 5).2 2 4).1 = (enqueue 0 1 (5 : ℚ)).1 + 5 ∧
     (enqueue (enqueue (enqueue 0 1 5).2 2 4).2 3 2).1 =
       (enqueue 0 1 (5 : ℚ)).1 + 5 + 4) :=
  ⟨by simp [enqueue]; norm_num, by simp [enqueue]; norm_num,
    c5_enqueue_back_to_back 0 1 2 3 5 4 2
      (by simp [enqueue]; norm_num) (by simp [enqueue]; norm_num) (by norm_num)⟩

/-- C1: on a live-session message whose tool call is `searchFlights` with
`{origin: "LHR", destination: "SIN", stops: [], date: "2024-05-01"}`, the
session manager invokes the Retrieval Orchestrator exactly once, with a
query containing "LHR" and "SIN", delivers the orchestrator result to the
`onFlightsFound` observer, and sends exactly one tool response whose id is
the original call id `call-1`. -/
theorem c1_tool_call_round_trip (env : RetrievalEnv) (r : ToolResponse)
    (hok : (fetchRealFlights env (buildSearchQuery fcLHR)).2 = .ok r) :
    handleMessageToolCall env true [fcLHR] =
      .ok [LiveEffect.invokeOrchestrator (buildSearchQuery fcLHR),
           LiveEffect.flightsFound r,
           LiveEffect.toolResponse (some "call-1") (some "searchFlights")
             (toolResultText r)] ∧
    ([LiveEffect.invokeOrchestrator (buildSearchQuery fcLHR),
      LiveEffect.flightsFound r,
      LiveEffect.toolResponse (some "call-1") (some "searchFlights")
        (toolResultText r)].countP isOrchestratorInvocation = 1 ∧
     [LiveEffect.invokeOrchestrator (buildSearchQuery fcLHR),
      LiveEffect.flightsFound r,
      LiveEffect.toolResponse (some "call-1") (some "searchFlights")
        (toolResultText r)].countP (isToolResponseWithId fcLHR.id) = 1) ∧
    (∃ a b, buildSearchQuery fcLHR = a ++ "LHR" ++ b) ∧
    (∃ a b, buildSearchQuery fcLHR = a ++ "SIN" ++ b) := by
  refine ⟨?_, ⟨?_, ?_⟩,
    ⟨"Flights from ", " to SIN  on 2024-05-01", by decide⟩,
    ⟨"Flights from LHR to ", "  on 2024-05-01", by decide⟩⟩
  · have hp := processFunctionCall_searchFlights env true fcLHR r rfl hok
    have h1 := handleMessageToolCall_singleton env true fcLHR _ hp
    simpa [fcLHR] using h1
  · rfl
  · rfl

/-- Witness for C1 at a concrete environment whose retrieval succeeds. -/
theorem c1_tool_call_round_trip_witness :
    (fetchRealFlights envParseFail (buildSearchQuery fcLHR)).2 = .ok rParseFail ∧
    handleMessageToolCall envParseFail true [fcLHR] =
      .ok [LiveEffect.invokeOrchestrator (buildSearchQuery fcLHR),
           LiveEffect.flightsFound rParseFail,
           LiveEffect.toolResponse (some "call-1") (some "searchFlights")
             (toolResultText rParseFail)] :=
  ⟨rfl, ((c1_tool_call_round_trip envParseFail rParseFail rfl).1)⟩

/-- C2 counterexample: when the stage-1 remote call throws, the live
tool-call path of `handleMessage` does not catch the failure and convert it
into the fallback result — the handler itself rejects with the error. -/
theorem c2_counterexample :
    handleMessageToolCall envSearchThrows true [fcLHR] = .error "network down" ∧
    (fetchRealFlights envSearchThrows (buildSearchQuery fcLHR)).2 ≠
      .ok errorFallback := by
  refine ⟨rfl, fun h => ?_⟩
  exact Except.noConfusion h

/-- C2 as amended: a failure in either remote call of the retrieval pipeline
propagates out of `fetchRealFlights`; on the text-query path `runTextQuery`
catches it and returns the fallback `{flights: [], summary: "Sorry, I
encountered an error.", sources: []}`, but on the live tool-call path the
failure propagates uncaught out of the message handler. -/
theorem c2_amended_fallback_only_on_text_path (env : TextEnv) (query : String)
    (resp : GenResponse) (fc : FunctionCall) (e : Err)
    (hg : env.generate query = .ok resp)
    (hfc : jsIndexZero resp.functionCalls = some fc)
    (hname : fc.name = some "searchFlights")
    (herr : (fetchRealFlights env.retrieval (buildSearchQuery fc)).2 = .error e) :
    (runTextQuery env query).2 = errorFallback ∧
    handleMessageToolCall env.retrieval true [fc] = .error e := by
  constructor
  · unfold runTextQuery
    rw [hg]
    simp only [hfc, hname]
    rcases hfr : fetchRealFlights env.retrieval (buildSearchQuery fc) with ⟨calls, res⟩
    rw [hfr] at herr
    simp only at herr
    rw [herr]
    simp
  · unfold handleMessageToolCall processFunctionCall
    rw [hname]
    simp only [if_pos rfl]
    rw [herr]
    simp only [Except.bind]
    rfl

/-- Witness for the amended C2 at a concrete environment whose search stage
throws. -/
theorem c2_amended_fallback_only_on_text_path_witness :
    envTextThrows.generate "flights LHR SIN" =
      .ok { functionCalls := some [fcLHR], text := none } ∧
    (fetchRealFlights envTextThrows.retrieval (buildSearchQuery fcLHR)).2 =
      .error "network down" ∧
    ((runTextQuery envTextThrows "flights LHR SIN").2 = errorFallback ∧
     handleMessageToolCall envTextThrows.retrieval true [fcLHR] =
       .error "network down") :=
  ⟨rfl, rfl,
    c2_amended_fallback_only_on_text_path envTextThrows "flights LHR SIN"
      { functionCalls := some [fcLHR], text := none } fcLHR "network down"
      rfl rfl rfl rfl⟩

/-- C6: a retrieval that completes after `disconnect()` (so the session
reference left by `disconnect` is null) still delivers its result to the
`onFlightsFound` observer, but no tool response is written: the optional
chain on the session reference guards the send. -/
theorem c6_stray_retrieval_after_disconnect (env : RetrievalEnv)
    (s : LiveState) (fc : FunctionCall) (r : ToolResponse)
    (hname : fc.name = some "searchFlights")
    (hok : (fetchRealFlights env (buildSearchQuery fc)).2 = .ok r) :
    (disconnect s).1.sessionPromise = false ∧
    handleMessageToolCall env (disconnect s).1.sessionPromise [fc] =
      .ok [LiveEffect.invokeOrchestrator (buildSearchQuery fc),
           LiveEffect.flightsFound r] ∧
    (∀ i n t, LiveEffect.toolResponse i n t ∉
      [LiveEffect.invokeOrchestrator (buildSearchQuery fc),
       LiveEffect.flightsFound r]) := by
  refine ⟨rfl, ?_, ?_⟩
  · have hp := processFunctionCall_searchFlights env false fc r hname hok
    have h1 := handleMessageToolCall_singleton env false fc _ hp
    simpa using h1
  · intro i n t hmem
    simp at hmem

/-- Witness for C6 at a concrete environment and the never-connected state. -/
theorem c6_stray_retrieval_after_disconnect_witness :
    fcLHR.name = some "searchFlights" ∧
    (fetchRealFlights envParseFail (buildSearchQuery fcLHR)).2 = .ok rParseFail ∧
    handleMessageToolCall envParseFail
        (disconnect initialLiveState).1.sessionPromise [fcLHR] =
      .ok [LiveEffect.invokeOrchestrator (buildSearchQuery fcLHR),
           LiveEffect.flightsFound rParseFail] :=
  ⟨rfl, rfl,
    (c6_stray_retrieval_after_disconnect envParseFail initialLiveState fcLHR
      rParseFail rfl rfl).2.1⟩

/-- C10: `runTextQuery` examines only the first element of the model
response's function-call list; when that first call is absent or not named
`searchFlights`, the retrieval pipeline is never invoked (the remote-call
trace holds only the generate call) — even when a `searchFlights` call
appears at a later position — and the result is
`{flights: [], summary: response text or the fixed hint, sources: []}`. -/
theorem c10_first_function_call_only (env : TextEnv) (query : String)
    (resp : GenResponse)
    (hg : env.generate query = .ok resp)
    (hfirst : ∀ fc, jsIndexZero resp.functionCalls = some fc →
      fc.name ≠ some "searchFlights") :
    runTextQuery env query =
      ([RemoteCall.generate query],
        { flights := [], summary := jsOr resp.text textHint, sources := [] }) := by
  unfold runTextQuery
  rw [hg]
  cases h : jsIndexZero resp.functionCalls with
  | none => simp [h]
  | some fc =>
    have hne := hfirst fc h
    simp [h, hne]

/-- Witness for C10: the first call is `getWeather` while `searchFlights`
sits in second position; no retrieval happens and the plain text becomes the
summary. -/
theorem c10_first_function_call_only_witness :
    envGenOther.generate "Cheapest flights to Bali in June" = .ok respC10 ∧
    (∀ fc, jsIndexZero respC10.functionCalls = some fc →
      fc.name ≠ some "searchFlights") ∧
    runTextQuery envGenOther "Cheapest flights to Bali in June" =
      ([RemoteCall.generate "Cheapest flights to Bali in June"],
        { flights := [], summary := jsOr respC10.text textHint,
          sources := [] }) := by
  refine ⟨rfl, ?_, c10_first_function_call_only envGenOther _ respC10 rfl ?_⟩ <;>
  · intro fc h
    injection h with h2
    subst h2
    decide

/-! ## PCM codec lemmas and claim C9 -/

/-- The encoded sample always lies in the signed 16-bit range
[−32767, 32767]. -/
theorem pcmEncodeSample_range (x : ℚ) :
    -32767 ≤ pcmEncodeSample x ∧ pcmEncodeSample x ≤ 32767 := by
  have hc1 : (-1 : ℚ) ≤ max (-1) (min 1 x) := le_max_left _ _
  have hc2 : max (-1 : ℚ) (min 1 x) ≤ 1 := max_le (by norm_num) (min_le_left _ _)
  unfold pcmEncodeSample
  rw [round_eq]
  constructor
  · apply Int.le_floor.mpr
    push_cast
    nlinarith
  · have h := Int.floor_le (max (-1 : ℚ) (min 1 x) * 32767 + 1 / 2)
    have h2 : (⌊max (-1 : ℚ) (min 1 x) * 32767 + 1 / 2⌋ : ℚ) < 32768 := by
      refine lt_of_le_of_lt h ?_
      nlinarith
    have h3 : ⌊max (-1 : ℚ) (min 1 x) * 32767 + 1 / 2⌋ < (32768 : ℤ) := by
      exact_mod_cast h2
    omega

/-- Little-endian byte serialization of a 16-bit signed value is inverted by
deserialization. -/
theorem int16_le_roundtrip (v : ℤ) (h1 : -32768 ≤ v) (h2 : v ≤ 32767) :
    int16FromLE (int16ToLE v).1 (int16ToLE v).2 = v := by
  unfold int16ToLE int16FromLE
  simp only []
  split <;> omega

/-- Decoding the encoded byte stream recovers exactly the per-sample
quantization of the input frame. -/
theorem decodeBytes_encodeFrame (frame : List ℚ) :
    decodeBytes (encodeFrame frame) =
      frame.map fun s => pcmDecodeSample (pcmEncodeSample s) := by
  induction frame with
  | nil => rfl
  | cons s rest ih =>
    have hr := pcmEncodeSample_range s
    have hv := int16_le_roundtrip (pcmEncodeSample s) (by omega) hr.2
    show pcmDecodeSample
        (int16FromLE (int16ToLE (pcmEncodeSample s)).1
          (int16ToLE (pcmEncodeSample s)).2) :: decodeBytes (encodeFrame rest) =
      pcmDecodeSample (pcmEncodeSample s) :: rest.map fun t =>
        pcmDecodeSample (pcmEncodeSample t)
    rw [hv, ih]

/-- One quantization step loses at most 1/32767 on samples in [−1, 1]. -/
theorem pcm_quantization_step (s : ℚ) (h1 : -1 ≤ s) (h2 : s ≤ 1) :
    |pcmDecodeSample (pcmEncodeSample s) - s| ≤ 1 / 32767 := by
  have hclamp : max (-1 : ℚ) (min 1 s) = s := by
    rw [min_eq_right h2, max_eq_right h1]
  unfold pcmEncodeSample pcmDecodeSample
  rw [hclamp]
  have h := abs_sub_round (s * 32767)
  rw [abs_sub_comm] at h
  have key : (round (s * 32767) : ℚ) / 32767 - s =
      ((round (s * 32767) : ℚ) - s * 32767) / 32767 := by ring
  rw [key, abs_div]
  have h32 : |(32767 : ℚ)| = 32767 := by norm_num
  rw [h32, div_le_iff₀ (by norm_num : (0 : ℚ) < 32767)]
  calc |(round (s * 32767) : ℚ) - s * 32767| ≤ 1 / 2 := h
    _ ≤ 1 / 32767 * 32767 := by norm_num

/-- C9: for every sample frame with all values in [−1, 1], encoding to
little-endian 16-bit signed PCM and decoding back yields a frame of the same
length whose elements differ from the originals by at most 1/32767 each. -/
theorem c9_pcm_roundtrip_quantization (x : List ℚ)
    (h : ∀ s ∈ x, -1 ≤ s ∧ s ≤ 1) :
    List.Forall₂ (fun y s => |y - s| ≤ 1 / 32767) (decodeBytes (encodeFrame x)) x := by
  rw [decodeBytes_encodeFrame, List.forall₂_map_left_iff]
  refine List.forall₂_same.mpr fun s hs => ?_
  exact pcm_quantization_step s (h s hs).1 (h s hs).2

/-- Witness for C9 at a concrete four-sample frame. -/
theorem c9_pcm_roundtrip_quantization_witness :
    (∀ s ∈ [(1 : ℚ), -1, 0], -1 ≤ s ∧ s ≤ 1) ∧
    List.Forall₂ (fun y s => |y - s| ≤ 1 / 32767)
      (decodeBytes (encodeFrame [(1 : ℚ), -1, 0]))
      [(1 : ℚ), -1, 0] :=
  ⟨by decide, c9_pcm_roundtrip_quantization [(1 : ℚ), -1, 0] (by decide)⟩

end TravelAssist
